import Mathlib

/-!
Verification development for the r.spread.pest interactive ensemble
simulation module (src/main.cpp).

The development shallowly embeds the parts of the program that the
steering claims are about: the integer raster type and the
`all_infected` scan, the steering wire-protocol parser and command
queue of `steering_client`, and the main simulation loop of `main`
(command handlers, the step condition, the year-closing batch with
checkpoint save, mortality aging, spread-rate accounting, run
synchronisation, and the clock advance).

External collaborators (the pops dispersal model, kernels, the pops
date library, raster I/O) are modelled from the spec where noted; the
stochastic per-run dispersal pass is abstracted as an oracle function
parameter, since its behaviour is out of scope and the claims hold for
every behaviour of it.
-/

/-- Raster of integer cell counts (the `Img` type of main.cpp, a pops
raster over int). Cell data is stored row-major. -/
structure Img where
  rows : Nat
  cols : Nat
  data : List Int
deriving DecidableEq

/-- Default raster (used as the out-of-bounds default of list lookups;
the C++ vectors are never accessed out of bounds). -/
def dImg : Img := Img.mk 0 0 []

/-- Cell access at row j, column k; 0 outside the stored data. -/
def Img.get (a : Img) (j k : Nat) : Int :=
  a.data.getD (j * a.cols + k) 0

/-- Elementwise combination of two rasters over the left raster's
extent (pops raster arithmetic is elementwise; operands always share
dimensions in main.cpp). -/
def Img.map2 (f : Int → Int → Int) (a b : Img) : Img :=
  Img.mk a.rows a.cols
    ((List.range a.data.length).map (fun i => f (a.data.getD i 0) (b.data.getD i 0)))

/-- Elementwise raster addition (operator+= of the pops raster). -/
def Img.add (a b : Img) : Img := Img.map2 (fun x y => x + y) a b

/-- Elementwise raster subtraction (operator-= of the pops raster). -/
def Img.sub (a b : Img) : Img := Img.map2 (fun x y => x - y) a b

/-- Modelled from the spec: scalar-times-raster of the external pops
raster library, as used by `infected_to_dead_rate * cohort` in the
mortality block ("move a fraction (mortality rate) of each bucket's
infected count").  Each integer cell count v becomes the floor of the
rational q * v, written computably as (q.num * v) fdiv q.den; cell
counts are nonnegative and the rate is in [0,1], so this agrees with
the C++ double product converted to int. -/
def Img.scalarMul (q : Rat) (a : Img) : Img :=
  Img.mk a.rows a.cols (a.data.map (fun v => (q.num * v).fdiv q.den))

/-- In-place zeroing of a raster (Img::zero()). -/
def Img.zero (a : Img) : Img :=
  Img.mk a.rows a.cols (a.data.map (fun _ => 0))

/-- Checks if there are any susceptible hosts left (`all_infected` in
main.cpp): true iff no cell inside the raster extent is positive. -/
def all_infected (susceptible : Img) : Bool :=
  decide (∀ j, j < susceptible.rows → ∀ k, k < susceptible.cols → susceptible.get j k ≤ 0)

/-- Modelled from the spec: a calendar date of the external pops date
library (the simulation clock's current date). The scheduler is
modelled at the month step granularity (step=month); the week case
differs only inside the external date library. -/
structure Date where
  year : Int
  month : Nat
  day : Nat
deriving DecidableEq

/-- Default date for out-of-bounds list lookups. -/
def dDate : Date := Date.mk 0 1 1

/-- Modelled from the spec: strict ordering of dates (operator> and
operator< of the pops date), lexicographic on year, month, day. -/
def Date.ltB (a b : Date) : Bool :=
  decide (a.year < b.year ∨ (a.year = b.year ∧
    (a.month < b.month ∨ (a.month = b.month ∧ a.day < b.day))))

/-- Modelled from the spec: non-strict ordering of dates. -/
def Date.leB (a b : Date) : Bool :=
  Date.ltB a b || decide (a = b)

/-- Modelled from the spec: advance the clock by one month
(increased_by_month of the pops date). -/
def Date.increasedByMonth (d : Date) : Date :=
  if 12 ≤ d.month then Date.mk (d.year + 1) 1 d.day
  else Date.mk d.year (d.month + 1) d.day

/-- Modelled from the spec: is this date in the last sub-step (month)
of its simulated year (is_last_month_of_year of the pops date). -/
def Date.isLastMonthOfYear (d : Date) : Bool :=
  decide (d.month = 12)

/-- Modelled from the spec: the end (Dec 31) of the next simulated
year (get_next_year_end of the pops date): Dec 31 of the current year,
or of the following year when the date already is a year end. -/
def Date.nextYearEnd (d : Date) : Date :=
  if d.month = 12 ∧ d.day = 31 then Date.mk (d.year + 1) 12 31
  else Date.mk d.year 12 31

/-- Steering command alphabet (enum class SteeringCommand of
main.cpp). -/
inductive SteeringCommand where
  | None
  | Play
  | Pause
  | StepForward
  | StepBack
  | Stop
  | GoTo
  | LoadData
  | ChangeName
  | SyncRuns
deriving DecidableEq

/-- Steering session state (class Steering of main.cpp): the FIFO
command queue plus the plain staging fields written by the network
thread and read by the scheduler. -/
structure Steering where
  command_queue : List SteeringCommand
  load_data : List Char
  basename : List Char
  goto_year : Int
  treatment_year : Int
deriving DecidableEq

/-- Steering::store - append a command to the FIFO queue. -/
def Steering.store (st : Steering) (cmd : SteeringCommand) : Steering :=
  { st with command_queue := st.command_queue ++ [cmd] }

/-- Fuel-driven worker for `cppSplit` (structural recursion so that
concrete frames evaluate inside the kernel). -/
def cppSplitGo (d : Char) : Nat → List Char → List (List Char)
  | 0, _ => []
  | f + 1, s =>
    let tok := s.takeWhile (fun c => c ≠ d)
    match s.dropWhile (fun c => c ≠ d) with
    | [] => [tok]
    | _ :: rest => tok :: cppSplitGo d f rest

/-- The `split` helper of main.cpp (std::getline driven): splits on the
delimiter; an empty input yields no tokens, and a trailing delimiter
does not yield a trailing empty token. -/
def cppSplit (s : List Char) (d : Char) : List (List Char) :=
  match s with
  | [] => []
  | s => cppSplitGo d s.length.succ s

/-- Modelled from the spec: the numeric parse of std::stoi /
std::stoul used for `goto:<year>` and `load:<year>:<name>` fields -
optional leading whitespace and sign, then a non-empty digit run
(further characters are ignored); none when no digits are present, in
which case the C++ call throws instead. -/
def stoiChars (s : List Char) : Option Int :=
  let s1 := s.dropWhile (fun c => c = ' ')
  let (sign, s2) : Int × List Char :=
    match s1 with
    | '-' :: rest => (-1, rest)
    | '+' :: rest => (1, rest)
    | rest => (1, rest)
  let digits := s2.takeWhile (fun c => c.isDigit)
  if digits.isEmpty then Option.none
  else Option.some (sign * (digits.foldl (fun a c => a * 10 + (c.toNat - '0'.toNat)) 0 : Nat))

/-- Is this message the stop command (`cmd` prefix with token `stop`),
the one message on which the client's frame loop breaks. -/
def isStopMsg (m : List Char) : Bool :=
  decide (m.take 3 = "cmd".toList) && decide (m.drop 4 = "stop".toList)

/-- The token chain for a `cmd:<token>` message in `steering_client`
(string cmd = message.substr(4); if (cmd == "play") ...): stores the
corresponding command; only `stop` also sets break_flag (the second
component). -/
def parseCmdToken (st : Steering) (tok : List Char) : Steering × Bool :=
  if tok = "play".toList then (st.store SteeringCommand.Play, false)
  else if tok = "pause".toList then (st.store SteeringCommand.Pause, false)
  else if tok = "stepf".toList then (st.store SteeringCommand.StepForward, false)
  else if tok = "stepb".toList then (st.store SteeringCommand.StepBack, false)
  else if tok = "stop".toList then (st.store SteeringCommand.Stop, true)
  else (st, false)

/-- One message of a received frame, as parsed by the body of the
per-message loop of `steering_client` in main.cpp. Returns the updated
steering state and whether break_flag was set (only `cmd:stop` sets
it). Numeric fields use `stoiChars`; a malformed numeric field or a
too-short message makes the C++ call throw instead, which `msgOk`
excludes. -/
def parseMessage (st : Steering) (m : List Char) : Steering × Bool :=
  if m.take 3 = "cmd".toList then parseCmdToken st (m.drop 4)
  else if m.take 4 = "load".toList then
    let parts := cppSplit m ':'
    let st := { st with
      treatment_year := (stoiChars (parts.getD 1 [])).getD 0,
      load_data := parts.getD 2 [] }
    (st.store SteeringCommand.LoadData, false)
  else if m.take 4 = "name".toList then
    ({ st with basename := m.drop 5 }.store SteeringCommand.ChangeName, false)
  else if m.take 4 = "goto".toList then
    ({ st with goto_year := (stoiChars (m.drop 5)).getD 0 }.store SteeringCommand.GoTo, false)
  else if m.take 4 = "sync".toList then
    (st.store SteeringCommand.SyncRuns, false)
  else (st, false)

/-- Well-formedness of a message: the C++ parser neither throws
(substr past the end, stoi/stoul on a non-number) nor reads a missing
load field on it.  Messages violating this kill the steering thread
with an exception, so frames containing them are outside the modelled
behaviours. -/
def msgOk (m : List Char) : Bool :=
  (!(decide (m.take 3 = "cmd".toList)) || decide (4 ≤ m.length)) &&
  (decide (m.take 3 = "cmd".toList) || !(decide (m.take 4 = "load".toList)) ||
    (decide (3 ≤ (cppSplit m ':').length) && (stoiChars ((cppSplit m ':').getD 1 [])).isSome)) &&
  (decide (m.take 3 = "cmd".toList) || decide (m.take 4 = "load".toList) ||
    !(decide (m.take 4 = "name".toList)) || decide (5 ≤ m.length)) &&
  (decide (m.take 3 = "cmd".toList) || decide (m.take 4 = "load".toList) ||
    decide (m.take 4 = "name".toList) || !(decide (m.take 4 = "goto".toList)) ||
    (decide (5 ≤ m.length) && (stoiChars (m.drop 5)).isSome))

/-- The per-frame message loop of `steering_client`: processes the
messages of one frame in order, stopping (with break_flag) as soon as
one message is `cmd:stop`. -/
def parseFrame : List (List Char) → Steering → Steering × Bool
  | [], st => (st, false)
  | m :: rest, st =>
    if (parseMessage st m).2 then ((parseMessage st m).1, true)
    else parseFrame rest (parseMessage st m).1

/-- Processing of a list of frames with no stop in them: fold of
`parseFrame` (used to describe the state the client reaches before a
receive failure). -/
def parseMsgs (msgs : List (List Char)) (st : Steering) : Steering :=
  msgs.foldl (fun a m => (parseMessage a m).1) st

/-- Steering state after processing a list of successful frames. -/
def processFrames (l : List (Int × List Char)) (st : Steering) : Steering :=
  l.foldl (fun a fr => (parseFrame (cppSplit fr.2 ';') a).1) st

/-- The receive loop of `steering_client` in main.cpp over a stream of
receive results (rec_error, payload). On rec_error ≤ 0 the client
closes its socket, stores Stop and breaks; on a frame containing
`cmd:stop` it stores Stop and breaks without closing the socket;
otherwise it parses the frame and loops. Returns the final steering
state and whether the socket was closed by the client. -/
def clientRun : List (Int × List Char) → Steering → Steering × Bool
  | [], st => (st, false)
  | (err, payload) :: rest, st =>
    if err ≤ 0 then (st.store SteeringCommand.Stop, true)
    else if (parseFrame (cppSplit payload ';') st).2 then
      ((parseFrame (cppSplit payload ';') st).1, false)
    else clientRun rest (parseFrame (cppSplit payload ';') st).1

/-- Modelled from the spec: a per-realization stateful dispersal kernel
(pops kernel library; "each realization owns an independent kernel
instance"). Its internals are out of scope; its state is opaque. -/
structure Kernel where
  state : Nat
deriving DecidableEq

/-- Default kernel for out-of-bounds list lookups. -/
def dKernel : Kernel := Kernel.mk 0

/-- Modelled from the spec: a per-realization spread-rate accumulator
(pops spread_rate library). Its internals are out of scope; its state
is opaque. -/
structure SpreadAcc where
  state : Nat
deriving DecidableEq

/-- Default spread-rate accumulator for out-of-bounds lookups. -/
def dSpreadAcc : SpreadAcc := SpreadAcc.mk 0

/-- Modelled from the spec: the year-indexed treatment schedule of the
external pops Treatments collaborator. -/
abbrev TreatmentSched := List (Int × Img)

/-- Modelled from the spec: clear_after_year discards every schedule
entry for years greater than or equal to the given year. -/
def clear_after_year (y : Int) (t : TreatmentSched) : TreatmentSched :=
  t.filter (fun e => decide (e.1 < y))

/-- Modelled from the spec: add_treatment inserts an intervention
raster at a year. -/
def add_treatment (y : Int) (img : Img) (t : TreatmentSched) : TreatmentSched :=
  t ++ [(y, img)]

/-- Oracle for the external collaborators invoked inside the main
loop.  runPass is the whole per-realization pass of the year-closing
batch (lethal removal, treatment application, generate/disperse over
the unresolved sub-steps - all calls into the external pops model,
stochastic and out of scope), given the run index and the run's
susceptible raster, infected raster, cohort rasters and kernel.
loadRaster is the external raster read of the LoadData handler, and
spreadCompute the external compute_yearly_spread_rate.  The claims
hold for every behaviour of the oracle. -/
structure StochOracle where
  runPass : Nat → Img → Img → List Img → Kernel → Img × Img × List Img × Kernel
  loadRaster : List Char → Img
  spreadCompute : SpreadAcc → Img → Nat → SpreadAcc

/-- The scheduler state of main(): the simulation clock, the
per-realization ensemble state, the checkpoint store and the steering
flags, together with the run configuration read from the options.
Fields keep the names of the C++ locals. -/
structure SimState where
  num_runs : Nat
  mortality : Bool
  first_year_to_die : Nat
  infected_to_dead_rate : Rat
  spread_rate_output : Bool
  dead_series : Bool
  steering : Bool
  dd_start : Date
  dd_end : Date
  S_species_rast : Img
  sus_species_rasts : List Img
  inf_species_rasts : List Img
  inf_species_cohort_rasts : List (List Img)
  dead_in_current_year : List Img
  accumulated_dead : Img
  spread_rates : List SpreadAcc
  kernels : List Kernel
  treatments : TreatmentSched
  sus_checkpoint : List (List Img)
  inf_checkpoint : List (List Img)
  step_checkpoint : List Int
  date_checkpoint : List Date
  last_checkpoint : Nat
  current_step : Int
  dd_current : Date
  dd_current_end : Date
  unresolved_steps : List Int
  unresolved_dates : List Date
  after_loading_checkpoint : Bool
  sync : Bool
  stopped : Bool
deriving DecidableEq

/-- num_checkpoints of main(): simulation years are a closed interval,
so there is one checkpoint slot per year boundary plus the initial
state. -/
def SimState.num_checkpoints (s : SimState) : Nat :=
  (s.dd_end.year - s.dd_start.year + 2).toNat

/-- Worker for `updateRuns`, carrying the absolute index. -/
def updateRunsGo (n : Nat) (f : Nat → α → α) : Nat → List α → List α
  | _, [] => []
  | i, v :: rest => (if i < n then f i v else v) :: updateRunsGo n f (i + 1) rest

/-- The `for (unsigned run = 0; run < num_runs; run++)` pattern of
main.cpp: update the first n entries of a per-run vector in place
(every per-run vector has length num_runs). -/
def updateRuns (n : Nat) (f : Nat → α → α) (l : List α) : List α :=
  updateRunsGo n f 0 l

/-- The StepBack handler of main() (one step back): when a prior
checkpoint exists, decrement last_checkpoint and restore rasters, step
counter and both dates from the now-current checkpoint slot, clearing
the unresolved steps; otherwise do nothing.  The raster/step/clear
assignments sit inside the per-run loop, hence the num_runs guards. -/
def stepBackHandler (s : SimState) : SimState :=
  if 1 ≤ s.last_checkpoint then
    let lc := s.last_checkpoint - 1
    let susRow := s.sus_checkpoint.getD lc []
    let infRow := s.inf_checkpoint.getD lc []
    let newSus := updateRuns s.num_runs (fun r _ => susRow.getD r dImg) s.sus_species_rasts
    let newInf := updateRuns s.num_runs (fun r _ => infRow.getD r dImg) s.inf_species_rasts
    { s with
      last_checkpoint := lc,
      dd_current_end := s.date_checkpoint.getD lc dDate,
      dd_current := s.date_checkpoint.getD lc dDate,
      sus_species_rasts := newSus,
      inf_species_rasts := newInf,
      current_step := if 0 < s.num_runs then s.step_checkpoint.getD lc 0 else s.current_step,
      unresolved_steps := if 0 < s.num_runs then [] else s.unresolved_steps,
      after_loading_checkpoint := true }
  else s

/-- The C++ `unsigned goto_checkpoint = steering_obj.goto_year`
conversion: int to unsigned is reduction modulo 2^32. -/
def gotoCheckpointIndex (y : Int) : Nat :=
  (y % (2 : Int) ^ 32).toNat

/-- The GoTo handler of main(): on an index at or below
last_checkpoint restore that checkpoint (backward jump); on an index
above it but inside the checkpoint horizon only move the target date
forward to Dec 31 of the requested year; otherwise do nothing.  The
C++ guard `goto_checkpoint < 0` is always false on an unsigned, so
only the `>= num_checkpoints` test is live, and a negative goto_year
reaches it as a value around 2^32. -/
def gotoHandler (gy : Int) (s : SimState) : SimState :=
  let gc := gotoCheckpointIndex gy
  if s.num_checkpoints ≤ gc then s
  else if gc ≤ s.last_checkpoint then
    let susRow := s.sus_checkpoint.getD gc []
    let infRow := s.inf_checkpoint.getD gc []
    let newSus := updateRuns s.num_runs (fun r _ => susRow.getD r dImg) s.sus_species_rasts
    let newInf := updateRuns s.num_runs (fun r _ => infRow.getD r dImg) s.inf_species_rasts
    { s with
      dd_current := s.date_checkpoint.getD gc dDate,
      dd_current_end := s.date_checkpoint.getD gc dDate,
      unresolved_steps := [],
      sus_species_rasts := newSus,
      inf_species_rasts := newInf,
      current_step := if 0 < s.num_runs then s.step_checkpoint.getD gc 0 else s.current_step,
      after_loading_checkpoint := true }
  else
    { s with dd_current_end := Date.mk (gy + s.dd_start.year - 1) 12 31 }

/-- Step 2 of the loop: apply one popped command (the if/else chain on
`cmd` in main()). GoTo and LoadData read their payloads from the
steering staging fields; LoadData truncates the treatment schedule and
adds the newly loaded raster. -/
def applyCommand (o : StochOracle) (st : Steering) (cmd : SteeringCommand) (s : SimState) :
    SimState :=
  match cmd with
  | SteeringCommand.None => s
  | SteeringCommand.Play => { s with dd_current_end := s.dd_end }
  | SteeringCommand.Pause => { s with dd_current_end := s.dd_current }
  | SteeringCommand.StepForward =>
    let e := s.dd_current.nextYearEnd
    { s with dd_current_end := if Date.ltB s.dd_end e then s.dd_end else e }
  | SteeringCommand.StepBack => stepBackHandler s
  | SteeringCommand.Stop => { s with stopped := true }
  | SteeringCommand.GoTo => gotoHandler st.goto_year s
  | SteeringCommand.LoadData =>
    let truncated := clear_after_year st.treatment_year s.treatments
    { s with treatments := add_treatment st.treatment_year (o.loadRaster st.load_data) truncated }
  | SteeringCommand.ChangeName => s
  | SteeringCommand.SyncRuns => { s with sync := true }

/-- The stochastic simulation runs of the year-closing batch (the
parallel for over runs in main()): when unresolved steps exist, each
run's susceptible/infected/cohort/kernel state goes through the
external per-run pass, then the unresolved buffers are cleared. -/
def stochPassBlock (o : StochOracle) (s : SimState) : SimState :=
  if s.unresolved_steps.isEmpty then s
  else
    let pass := fun run =>
      o.runPass run (s.sus_species_rasts.getD run dImg) (s.inf_species_rasts.getD run dImg)
        (s.inf_species_cohort_rasts.getD run []) (s.kernels.getD run dKernel)
    let newCoh := updateRuns s.num_runs (fun r _ => (pass r).2.2.1) s.inf_species_cohort_rasts
    { s with
      sus_species_rasts := updateRuns s.num_runs (fun r _ => (pass r).1) s.sus_species_rasts,
      inf_species_rasts := updateRuns s.num_runs (fun r _ => (pass r).2.1) s.inf_species_rasts,
      inf_species_cohort_rasts := newCoh,
      kernels := updateRuns s.num_runs (fun r _ => (pass r).2.2.2) s.kernels,
      unresolved_steps := [],
      unresolved_dates := [] }

/-- The checkpoint save of the year-closing batch: set last_checkpoint
to the slot of the newly closed year and deep-copy every run's
susceptible and infected raster plus step counter and date into it
(the whole body, last_checkpoint assignment included, sits inside the
per-run loop, hence the num_runs guard). -/
def checkpointSaveBlock (s : SimState) : SimState :=
  let lc := (s.dd_current.year - s.dd_start.year + 1).toNat
  if 0 < s.num_runs then
    let susRow := updateRuns s.num_runs (fun r _ => s.sus_species_rasts.getD r dImg)
      (s.sus_checkpoint.getD lc [])
    let infRow := updateRuns s.num_runs (fun r _ => s.inf_species_rasts.getD r dImg)
      (s.inf_checkpoint.getD lc [])
    { s with
      last_checkpoint := lc,
      sus_checkpoint := s.sus_checkpoint.set lc susRow,
      inf_checkpoint := s.inf_checkpoint.set lc infRow,
      step_checkpoint := s.step_checkpoint.set lc s.current_step,
      date_checkpoint := s.date_checkpoint.set lc s.dd_current }
  else s

/-- One iteration of the mortality aging loop body (`for age = 0; age
<= max_index`): a fraction of the cohort bucket moves out of the
bucket and into the dead-in-current-year accumulator. -/
def mortalityStep (q : Rat) (p : List Img × Img) (age : Nat) : List Img × Img :=
  let deadInCohort := Img.scalarMul q (p.1.getD age dImg)
  (p.1.set age (Img.sub (p.1.getD age dImg) deadInCohort), Img.add p.2 deadInCohort)

/-- The mortality aging of one run: fold the loop body over ages 0 up
to and including max_index, starting from the run's cohorts and its
freshly zeroed dead-in-current-year raster. -/
def mortalityRun (q : Rat) (maxIndex : Nat) (coh : List Img) (dead0 : Img) : List Img × Img :=
  (List.range (maxIndex + 1)).foldl (mortalityStep q) (coh, dead0)

/-- The mortality block of the year-closing batch in main(): when
mortality is on and the simulation year has reached first_year_to_die
- 1, every run ages its cohort buckets up to max_index =
simulation_year - (first_year_to_die - 1) and subtracts the dead from
its infected raster.  first_year_to_die is at least 1 (option
semantics; default 1). -/
def mortalityBlock (s : SimState) : SimState :=
  if s.mortality then
    let simYear := (s.dd_current.year - s.dd_start.year).toNat
    if s.first_year_to_die - 1 ≤ simYear then
      let maxIndex := simYear - (s.first_year_to_die - 1)
      let res := fun run =>
        mortalityRun s.infected_to_dead_rate maxIndex
          (s.inf_species_cohort_rasts.getD run [])
          (Img.zero (s.dead_in_current_year.getD run dImg))
      let newCoh := updateRuns s.num_runs (fun r _ => (res r).1) s.inf_species_cohort_rasts
      let newDead := updateRuns s.num_runs (fun r _ => (res r).2) s.dead_in_current_year
      let newInf := updateRuns s.num_runs (fun r v => Img.sub v (res r).2) s.inf_species_rasts
      { s with
        inf_species_cohort_rasts := newCoh,
        dead_in_current_year := newDead,
        inf_species_rasts := newInf }
    else s
  else s

/-- The spread-rate block of the year-closing batch: when the output
is requested, each run's accumulator absorbs its infected raster for
the closing simulation year via the external computation. -/
def spreadRateBlock (o : StochOracle) (s : SimState) : SimState :=
  if s.spread_rate_output then
    let simYear := (s.dd_current.year - s.dd_start.year).toNat
    let f := fun i acc => o.spreadCompute acc (s.inf_species_rasts.getD i dImg) simYear
    { s with spread_rates := updateRuns s.num_runs f s.spread_rates }
  else s

/-- The sync block of the year-closing batch in main(): when a Sync
was requested, overwrite every run other than the selected run 0 with
run 0's susceptible and infected rasters and clear the flag. -/
def syncBlock (s : SimState) : SimState :=
  if s.sync then
    let selSus := s.sus_species_rasts.getD 0 dImg
    let selInf := s.inf_species_rasts.getD 0 dImg
    let newSus := updateRuns s.num_runs (fun r v => if r = 0 then v else selSus) s.sus_species_rasts
    let newInf := updateRuns s.num_runs (fun r v => if r = 0 then v else selInf) s.inf_species_rasts
    { s with
      sus_species_rasts := newSus,
      inf_species_rasts := newInf,
      sync := false }
  else s

/-- The mortality-series block at the end of the year-closing batch:
with mortality on and a dead-series output requested, run 0's
dead-in-current-year raster accumulates into accumulated_dead (the
raster then written out; the write itself is external I/O). -/
def deadSeriesBlock (s : SimState) : SimState :=
  if s.mortality && s.dead_series then
    let acc := Img.add s.accumulated_dead (s.dead_in_current_year.getD 0 dImg)
    { s with accumulated_dead := acc }
  else s

/-- The year-closing batch of main(), in source order: stochastic runs
over the unresolved steps, checkpoint save, mortality aging,
spread-rate accounting, run synchronisation, dead-series accumulation
(the remaining output blocks only aggregate into scratch buffers and
perform external I/O). -/
def yearClose (o : StochOracle) (s : SimState) : SimState :=
  deadSeriesBlock (syncBlock (spreadRateBlock o (mortalityBlock
    (checkpointSaveBlock (stochPassBlock o s)))))

/-- Step 3's condition in main(): execution proceeds while the target
date is past the start and the clock has not passed the target. -/
def stepGuard (s : SimState) : Bool :=
  Date.ltB s.dd_start s.dd_current_end && Date.leB s.dd_current s.dd_current_end

/-- The start of step 3 in main(): record the current step and date as
unresolved. -/
def stepPush (s : SimState) : SimState :=
  { s with
    unresolved_steps := s.unresolved_steps ++ [s.current_step],
    unresolved_dates := s.unresolved_dates ++ [s.dd_current] }

/-- The year-closing dispatch: run the year-closing batch at the last
sub-step of a simulated year, unless a checkpoint was just loaded. -/
def maybeYearClose (o : StochOracle) (s : SimState) : SimState :=
  if s.dd_current.isLastMonthOfYear && !s.after_loading_checkpoint then yearClose o s
  else s

/-- Reset of the after-loading-checkpoint flag at the end of a stepping
iteration. -/
def clearAfterLoading (s : SimState) : SimState :=
  { s with after_loading_checkpoint := false }

/-- Step 4 of the loop: advance the clock by one sub-step. -/
def stepAdvance (s : SimState) : SimState :=
  { s with
    dd_current := s.dd_current.increasedByMonth,
    current_step := s.current_step + 1 }

/-- End-of-loop check: past the end date the loop terminates, unless a
steering session keeps it alive waiting for Stop. -/
def stepEnd (s : SimState) : SimState :=
  if Date.ltB s.dd_end s.dd_current && !s.steering then { s with stopped := true }
  else s

/-- Steps 3-4 of the loop in main(): record the step as unresolved;
exit with a warning if all susceptible hosts of the checked raster
(S_species_rast) are infected; at the last sub-step of a year run the
year-closing batch; drop the after-loading flag, advance the clock,
and check for the end of the simulation. -/
def stepPhase (o : StochOracle) (s : SimState) : SimState :=
  if all_infected s.S_species_rast then { stepPush s with stopped := true }
  else stepEnd (stepAdvance (clearAfterLoading (maybeYearClose o (stepPush s))))

/-- One iteration of the main simulation loop: consume one command,
apply it, and either perform a sub-step (possibly closing a year) or
idle in the paused state.  A stopped state is final (the C++ loop has
been left). -/
def loopIter (o : StochOracle) (st : Steering) (cmd : SteeringCommand) (s : SimState) :
    SimState :=
  if s.stopped then s
  else if (applyCommand o st cmd s).stopped then applyCommand o st cmd s
  else if stepGuard (applyCommand o st cmd s) then stepPhase o (applyCommand o st cmd s)
  else applyCommand o st cmd s

/-- Iterated main loop over a list of commands (None = empty queue), in
arrival order. -/
def runLoop (o : StochOracle) (st : Steering) (cmds : List SteeringCommand) (s : SimState) :
    SimState :=
  cmds.foldl (fun a c => loopIter o st c a) s

/-- Oracle used for the concrete executions: the per-run pass doubles
the infected raster (a stand-in for one year of external dispersal,
which in general changes the infected state), raster loads return the
empty raster, and spread-rate accumulators are left alone. -/
def cexOracle : StochOracle where
  runPass := fun _ sus inf coh ker => (sus, Img.add inf inf, coh, ker)
  loadRaster := fun _ => dImg
  spreadCompute := fun acc _ _ => acc

/-- Concrete steering staging with empty queue and zeroed fields. -/
def cexSteering : Steering := Steering.mk [] [] [] 0 0

/-- A 1x1 raster holding 5 susceptible hosts. -/
def img5 : Img := Img.mk 1 1 [5]

/-- A 1x1 raster holding 1 infected host. -/
def img1 : Img := Img.mk 1 1 [1]

/-- A 1x1 zero raster. -/
def img0 : Img := Img.mk 1 1 [0]

/-- Concrete initial scheduler state, mirroring the initialisation in
main() for one run, a 1x1 raster, start and end year 2000, and an
attached steering session (so the clock starts paused at the start
date and the checkpoint arrays hold the slot-0 initial snapshot). -/
def cexInit : SimState where
  num_runs := 1
  mortality := false
  first_year_to_die := 1
  infected_to_dead_rate := 0
  spread_rate_output := false
  dead_series := false
  steering := true
  dd_start := Date.mk 2000 1 1
  dd_end := Date.mk 2000 12 31
  S_species_rast := img5
  sus_species_rasts := [img5]
  inf_species_rasts := [img1]
  inf_species_cohort_rasts := [[img0]]
  dead_in_current_year := [img0]
  accumulated_dead := img0
  spread_rates := [dSpreadAcc]
  kernels := [dKernel]
  treatments := []
  sus_checkpoint := [[img5], [img5]]
  inf_checkpoint := [[img1], [img5]]
  step_checkpoint := [0, 0]
  date_checkpoint := [Date.mk 2000 1 1, Date.mk 2000 1 1]
  last_checkpoint := 0
  current_step := 0
  dd_current := Date.mk 2000 1 1
  dd_current_end := Date.mk 2000 1 1
  unresolved_steps := []
  unresolved_dates := []
  after_loading_checkpoint := false
  sync := false
  stopped := false

/-- The state reached from `cexInit` by a Play command followed by
eleven empty polls: the simulated year 2000 has been closed, so the
year-end checkpoint in slot 1 has been saved and last_checkpoint = 1. -/
def cexAfterYear : SimState :=
  runLoop cexOracle cexSteering
    (SteeringCommand.Play :: List.replicate 11 SteeringCommand.None) cexInit

/-- Concrete state for the StepBack witness: the initial state with
one closed year recorded (last_checkpoint = 1). -/
def c1w : SimState := { cexInit with last_checkpoint := 1 }

/-- The state reached from `cexInit` by Play and one empty poll: the
clock stands at Mar 1, strictly past the start date. -/
def c2Pre : SimState :=
  runLoop cexOracle cexSteering [SteeringCommand.Play, SteeringCommand.None] cexInit

/-- Concrete state for the sync witness: two runs with different
rasters and the sync flag already requested. -/
def c7w : SimState := { cexInit with
  num_runs := 2,
  sus_species_rasts := [img5, img1],
  inf_species_rasts := [img1, img5],
  inf_species_cohort_rasts := [[img0], [img0]],
  dead_in_current_year := [img0, img0],
  spread_rates := [dSpreadAcc, dSpreadAcc],
  kernels := [dKernel, dKernel],
  sync := true }

/-- Concrete state for the mortality witness: mortality on, rate 1/2,
time lag 1 year, the year-closing of simulation year 1, one run whose
age-0 cohort cell holds 10 infected hosts, age-1 cohort cell 0,
infected raster cell 12, and a stale dead-in-current-year cell 7 that
the block zeroes before accumulating. -/
def c6w : SimState := { cexInit with
  mortality := true,
  infected_to_dead_rate := Rat.mk' 1 2 (by decide) (by decide),
  dd_current := Date.mk 2001 12 1,
  inf_species_cohort_rasts := [[Img.mk 1 1 [10], img0]],
  inf_species_rasts := [Img.mk 1 1 [12]],
  dead_in_current_year := [Img.mk 1 1 [7]] }

lemma updateRunsGo_length (n : Nat) (f : Nat → α → α) :
    ∀ (l : List α) (i : Nat), (updateRunsGo n f i l).length = l.length
  | [], _ => rfl
  | _ :: rest, i => by
    simp only [updateRunsGo, List.length_cons]
    rw [updateRunsGo_length n f rest]

lemma updateRuns_length (n : Nat) (f : Nat → α → α) (l : List α) :
    (updateRuns n f l).length = l.length :=
  updateRunsGo_length n f l 0

lemma updateRunsGo_getD (n : Nat) (f : Nat → α → α) (d : α) :
    ∀ (l : List α) (i r : Nat),
      (updateRunsGo n f i l).getD r d =
        if r < l.length ∧ i + r < n then f (i + r) (l.getD r d) else l.getD r d
  | [], i, r => by simp [updateRunsGo]
  | v :: rest, i, 0 => by
    simp only [updateRunsGo, List.getD_cons_zero, List.length_cons]
    by_cases h : i + 0 < n
    · simp [h, Nat.succ_pos]
    · simp [h]
  | v :: rest, i, r + 1 => by
    simp only [updateRunsGo, List.getD_cons_succ, List.length_cons]
    rw [updateRunsGo_getD n f d rest (i + 1) r]
    have harith : i + 1 + r = i + (r + 1) := by omega
    rw [harith]
    by_cases h1 : r < rest.length
    · simp [h1, Nat.succ_lt_succ_iff]
    · simp [h1]

lemma updateRuns_getD (n : Nat) (f : Nat → α → α) (l : List α) (d : α) (r : Nat)
    (h1 : r < l.length) (h2 : r < n) :
    (updateRuns n f l).getD r d = f r (l.getD r d) := by
  unfold updateRuns
  rw [updateRunsGo_getD]
  simp [h1, h2]

lemma updateRunsGo_const_row (n : Nat) (row : List α) (d : α) :
    ∀ (l : List α) (i : Nat), i + l.length = n → row.length = n →
      updateRunsGo n (fun r _ => row.getD r d) i l = row.drop i
  | [], i, hi, hr => by
    simp only [List.length_nil, Nat.add_zero] at hi
    simp only [updateRunsGo]
    rw [List.drop_eq_nil_of_le (by omega)]
  | v :: rest, i, hi, hr => by
    have hin : i < n := by
      simp only [List.length_cons] at hi
      omega
    have hirow : i < row.length := by omega
    simp only [updateRunsGo, if_pos hin]
    rw [updateRunsGo_const_row n row d rest (i + 1)
      (by simp only [List.length_cons] at hi; omega) hr]
    rw [List.drop_eq_getElem_cons hirow]
    rw [List.getD_eq_getElem row d hirow]

lemma updateRuns_const_row (n : Nat) (row l : List α) (d : α)
    (hl : l.length = n) (hr : row.length = n) :
    updateRuns n (fun r _ => row.getD r d) l = row := by
  unfold updateRuns
  rw [updateRunsGo_const_row n row d l 0 (by omega) hr]
  rfl

lemma rangeMap_getD (g : Nat → Int) (n i : Nat) (h : i < n) :
    ((List.range n).map g).getD i 0 = g i := by
  rw [List.getD_eq_getElem _ _ (by simpa using h)]
  simp

lemma Img.cols_map2 (f : Int → Int → Int) (a b : Img) : (Img.map2 f a b).cols = a.cols := rfl

lemma Img.rows_map2 (f : Int → Int → Int) (a b : Img) : (Img.map2 f a b).rows = a.rows := rfl

lemma Img.data_length_map2 (f : Int → Int → Int) (a b : Img) :
    (Img.map2 f a b).data.length = a.data.length := by
  simp [Img.map2]

lemma Img.get_map2 (f : Int → Int → Int) (a b : Img) (j k : Nat)
    (h : j * a.cols + k < a.data.length) (hc : b.cols = a.cols) :
    (Img.map2 f a b).get j k = f (a.get j k) (b.get j k) := by
  unfold Img.get Img.map2
  simp only [hc]
  exact rangeMap_getD _ _ _ h

lemma Img.get_add (a b : Img) (j k : Nat) (h : j * a.cols + k < a.data.length)
    (hc : b.cols = a.cols) :
    (Img.add a b).get j k = a.get j k + b.get j k :=
  Img.get_map2 _ a b j k h hc

lemma Img.get_sub (a b : Img) (j k : Nat) (h : j * a.cols + k < a.data.length)
    (hc : b.cols = a.cols) :
    (Img.sub a b).get j k = a.get j k - b.get j k :=
  Img.get_map2 _ a b j k h hc

lemma Img.cols_scalarMul (q : Rat) (a : Img) : (Img.scalarMul q a).cols = a.cols := rfl

lemma Img.data_length_scalarMul (q : Rat) (a : Img) :
    (Img.scalarMul q a).data.length = a.data.length := by
  simp [Img.scalarMul]

lemma Img.get_scalarMul (q : Rat) (a : Img) (j k : Nat)
    (h : j * a.cols + k < a.data.length) :
    (Img.scalarMul q a).get j k = (q.num * a.get j k).fdiv q.den := by
  unfold Img.get Img.scalarMul
  simp only []
  rw [List.getD_eq_getElem _ _ (by simpa using h)]
  rw [List.getD_eq_getElem _ _ h]
  simp

lemma Img.cols_zero (a : Img) : (Img.zero a).cols = a.cols := rfl

lemma Img.data_length_zero (a : Img) : (Img.zero a).data.length = a.data.length := by
  simp [Img.zero]

lemma Img.get_zero (a : Img) (j k : Nat) (h : j * a.cols + k < a.data.length) :
    (Img.zero a).get j k = 0 := by
  unfold Img.get Img.zero
  simp only []
  rw [List.getD_eq_getElem _ _ (by simpa using h)]
  simp

lemma Date.ltB_irrefl (d : Date) : Date.ltB d d = false := by
  simp [Date.ltB]

lemma stochPassBlock_frame (o : StochOracle) (s : SimState) :
    (stochPassBlock o s).stopped = s.stopped ∧
    (stochPassBlock o s).dd_current = s.dd_current ∧
    (stochPassBlock o s).dd_end = s.dd_end ∧
    (stochPassBlock o s).dd_start = s.dd_start ∧
    (stochPassBlock o s).steering = s.steering ∧
    (stochPassBlock o s).S_species_rast = s.S_species_rast ∧
    (stochPassBlock o s).sync = s.sync ∧
    (stochPassBlock o s).num_runs = s.num_runs ∧
    (stochPassBlock o s).sus_species_rasts.length = s.sus_species_rasts.length ∧
    (stochPassBlock o s).inf_species_rasts.length = s.inf_species_rasts.length := by
  unfold stochPassBlock
  split <;> simp [updateRuns_length]

lemma checkpointSaveBlock_frame (s : SimState) :
    (checkpointSaveBlock s).stopped = s.stopped ∧
    (checkpointSaveBlock s).dd_current = s.dd_current ∧
    (checkpointSaveBlock s).dd_end = s.dd_end ∧
    (checkpointSaveBlock s).dd_start = s.dd_start ∧
    (checkpointSaveBlock s).steering = s.steering ∧
    (checkpointSaveBlock s).S_species_rast = s.S_species_rast ∧
    (checkpointSaveBlock s).sync = s.sync ∧
    (checkpointSaveBlock s).num_runs = s.num_runs ∧
    (checkpointSaveBlock s).sus_species_rasts = s.sus_species_rasts ∧
    (checkpointSaveBlock s).inf_species_rasts = s.inf_species_rasts := by
  unfold checkpointSaveBlock
  split <;> simp

lemma mortalityBlock_frame (s : SimState) :
    (mortalityBlock s).stopped = s.stopped ∧
    (mortalityBlock s).dd_current = s.dd_current ∧
    (mortalityBlock s).dd_end = s.dd_end ∧
    (mortalityBlock s).dd_start = s.dd_start ∧
    (mortalityBlock s).steering = s.steering ∧
    (mortalityBlock s).S_species_rast = s.S_species_rast ∧
    (mortalityBlock s).sync = s.sync ∧
    (mortalityBlock s).num_runs = s.num_runs ∧
    (mortalityBlock s).sus_species_rasts = s.sus_species_rasts ∧
    (mortalityBlock s).inf_species_rasts.length = s.inf_species_rasts.length := by
  unfold mortalityBlock
  by_cases h1 : s.mortality = true
  all_goals by_cases h2 : s.first_year_to_die - 1 ≤ (s.dd_current.year - s.dd_start.year).toNat
  all_goals simp [h1, h2, updateRuns_length]

lemma spreadRateBlock_frame (o : StochOracle) (s : SimState) :
    (spreadRateBlock o s).stopped = s.stopped ∧
    (spreadRateBlock o s).dd_current = s.dd_current ∧
    (spreadRateBlock o s).dd_end = s.dd_end ∧
    (spreadRateBlock o s).dd_start = s.dd_start ∧
    (spreadRateBlock o s).steering = s.steering ∧
    (spreadRateBlock o s).S_species_rast = s.S_species_rast ∧
    (spreadRateBlock o s).sync = s.sync ∧
    (spreadRateBlock o s).num_runs = s.num_runs ∧
    (spreadRateBlock o s).sus_species_rasts = s.sus_species_rasts ∧
    (spreadRateBlock o s).inf_species_rasts = s.inf_species_rasts := by
  unfold spreadRateBlock
  split <;> simp

lemma syncBlock_frame (s : SimState) :
    (syncBlock s).stopped = s.stopped ∧
    (syncBlock s).dd_current = s.dd_current ∧
    (syncBlock s).dd_end = s.dd_end ∧
    (syncBlock s).dd_start = s.dd_start ∧
    (syncBlock s).steering = s.steering ∧
    (syncBlock s).S_species_rast = s.S_species_rast ∧
    (syncBlock s).num_runs = s.num_runs := by
  unfold syncBlock
  split <;> simp

lemma deadSeriesBlock_frame (s : SimState) :
    (deadSeriesBlock s).stopped = s.stopped ∧
    (deadSeriesBlock s).dd_current = s.dd_current ∧
    (deadSeriesBlock s).dd_end = s.dd_end ∧
    (deadSeriesBlock s).dd_start = s.dd_start ∧
    (deadSeriesBlock s).steering = s.steering ∧
    (deadSeriesBlock s).S_species_rast = s.S_species_rast ∧
    (deadSeriesBlock s).sync = s.sync ∧
    (deadSeriesBlock s).num_runs = s.num_runs ∧
    (deadSeriesBlock s).sus_species_rasts = s.sus_species_rasts ∧
    (deadSeriesBlock s).inf_species_rasts = s.inf_species_rasts := by
  unfold deadSeriesBlock
  split <;> simp

lemma yearClose_frame (o : StochOracle) (s : SimState) :
    (yearClose o s).stopped = s.stopped ∧
    (yearClose o s).dd_current = s.dd_current ∧
    (yearClose o s).dd_end = s.dd_end ∧
    (yearClose o s).dd_start = s.dd_start ∧
    (yearClose o s).steering = s.steering ∧
    (yearClose o s).S_species_rast = s.S_species_rast := by
  unfold yearClose
  have h1 := stochPassBlock_frame o s
  have h2 := checkpointSaveBlock_frame (stochPassBlock o s)
  have h3 := mortalityBlock_frame (checkpointSaveBlock (stochPassBlock o s))
  have h4 := spreadRateBlock_frame o
    (mortalityBlock (checkpointSaveBlock (stochPassBlock o s)))
  have h5 := syncBlock_frame
    (spreadRateBlock o (mortalityBlock (checkpointSaveBlock (stochPassBlock o s))))
  have h6 := deadSeriesBlock_frame
    (syncBlock (spreadRateBlock o (mortalityBlock (checkpointSaveBlock (stochPassBlock o s)))))
  refine ⟨?_, ?_, ?_, ?_, ?_, ?_⟩
  · rw [h6.1, h5.1, h4.1, h3.1, h2.1, h1.1]
  · rw [h6.2.1, h5.2.1, h4.2.1, h3.2.1, h2.2.1, h1.2.1]
  · rw [h6.2.2.1, h5.2.2.1, h4.2.2.1, h3.2.2.1, h2.2.2.1, h1.2.2.1]
  · rw [h6.2.2.2.1, h5.2.2.2.1, h4.2.2.2.1, h3.2.2.2.1, h2.2.2.2.1, h1.2.2.2.1]
  · rw [h6.2.2.2.2.1, h5.2.2.2.2.1, h4.2.2.2.2.1, h3.2.2.2.2.1, h2.2.2.2.2.1, h1.2.2.2.2.1]
  · rw [h6.2.2.2.2.2.1, h5.2.2.2.2.2.1, h4.2.2.2.2.2.1, h3.2.2.2.2.2.1, h2.2.2.2.2.2.1,
      h1.2.2.2.2.2.1]

lemma parseCmdToken_stop (st : Steering) (tok : List Char) (h : tok = "stop".toList) :
    parseCmdToken st tok = (st.store SteeringCommand.Stop, true) := by
  subst h
  rfl

lemma parseCmdToken_snd (st : Steering) (tok : List Char) (h : tok ≠ "stop".toList) :
    (parseCmdToken st tok).2 = false := by
  unfold parseCmdToken
  split_ifs <;> simp_all

lemma parseMessage_stop (st : Steering) (m : List Char) (h : isStopMsg m = true) :
    parseMessage st m = (st.store SteeringCommand.Stop, true) := by
  unfold isStopMsg at h
  simp only [Bool.and_eq_true, decide_eq_true_eq] at h
  obtain ⟨h1, h2⟩ := h
  unfold parseMessage
  rw [if_pos h1]
  exact parseCmdToken_stop st (m.drop 4) h2

lemma parseMessage_snd (st : Steering) (m : List Char) (h : isStopMsg m = false) :
    (parseMessage st m).2 = false := by
  unfold isStopMsg at h
  simp only [Bool.and_eq_false_iff, decide_eq_false_iff_not] at h
  unfold parseMessage
  by_cases h1 : m.take 3 = "cmd".toList
  · rw [if_pos h1]
    refine parseCmdToken_snd st (m.drop 4) ?_
    rcases h with h | h
    · exact absurd h1 h
    · exact h
  · rw [if_neg h1]
    split_ifs <;> rfl

lemma parseFrame_no_stop (msgs : List (List Char)) :
    ∀ st : Steering, (∀ m ∈ msgs, isStopMsg m = false) →
      parseFrame msgs st = (parseMsgs msgs st, false) := by
  induction msgs with
  | nil => intro st _; rfl
  | cons m rest ih =>
    intro st h
    have hm : isStopMsg m = false := h m (by simp)
    unfold parseFrame
    rw [parseMessage_snd st m hm]
    simp only [Bool.false_eq_true, if_false]
    rw [ih (parseMessage st m).1 (fun x hx => h x (by simp [hx]))]
    rfl

lemma parseFrame_stop_tail (pre suf : List (List Char)) (m0 : List Char)
    (hstop : isStopMsg m0 = true) :
    ∀ st : Steering, (∀ m ∈ pre, isStopMsg m = false) →
      parseFrame (pre ++ m0 :: suf) st = ((parseMsgs pre st).store SteeringCommand.Stop, true) := by
  induction pre with
  | nil =>
    intro st _
    simp only [List.nil_append]
    unfold parseFrame
    rw [parseMessage_stop st m0 hstop]
    rfl
  | cons m rest ih =>
    intro st h
    have hm : isStopMsg m = false := h m (by simp)
    simp only [List.cons_append]
    unfold parseFrame
    rw [parseMessage_snd st m hm]
    simp only [Bool.false_eq_true, if_false]
    rw [ih (parseMessage st m).1 (fun x hx => h x (by simp [hx]))]
    rfl

lemma clientRun_skips_good_frames (good : List (Int × List Char)) :
    ∀ (l2 : List (Int × List Char)) (st : Steering),
      (∀ fr ∈ good, 0 < fr.1 ∧ ∀ m ∈ cppSplit fr.2 ';', isStopMsg m = false) →
      clientRun (good ++ l2) st = clientRun l2 (processFrames good st) := by
  induction good with
  | nil => intro l2 st _; rfl
  | cons fr rest ih =>
    intro l2 st h
    obtain ⟨hpos, hframe⟩ := h fr (by simp)
    obtain ⟨e, payload⟩ := fr
    simp only [List.cons_append]
    unfold clientRun
    rw [if_neg (by simp only [] at hpos; omega)]
    rw [parseFrame_no_stop (cppSplit payload ';') st (by simpa using hframe)]
    simp only [Bool.false_eq_true, if_false]
    rw [ih l2 (parseMsgs (cppSplit payload ';') st) (fun x hx => h x (by simp [hx]))]
    have heq : processFrames ((e, payload) :: rest) st
        = processFrames rest (parseMsgs (cppSplit payload ';') st) := by
      unfold processFrames
      simp only [List.foldl_cons]
      rw [parseFrame_no_stop (cppSplit payload ';') st (by simpa using hframe)]
    rw [heq]
    exact clientRun.eq_def l2 (processFrames rest (parseMsgs (cppSplit payload ';') st))

lemma listGetD_set_eq (l : List α) (i : Nat) (a d : α) (h : i < l.length) :
    (l.set i a).getD i d = a := by
  rw [List.getD_eq_getElem?_getD]
  simp [List.getElem?_set_self, h]

lemma listGetD_set_ne (l : List α) (i j : Nat) (a d : α) (h : i ≠ j) :
    (l.set i a).getD j d = l.getD j d := by
  rw [List.getD_eq_getElem?_getD, List.getElem?_set_ne h, ← List.getD_eq_getElem?_getD]

lemma gotoCheckpointIndex_of_nonneg (y : Int) (h0 : 0 ≤ y) (h1 : y < 4294967296) :
    gotoCheckpointIndex y = y.toNat := by
  unfold gotoCheckpointIndex
  have h2 : (2 : Int) ^ 32 = 4294967296 := by norm_num
  rw [h2, Int.emod_eq_of_lt h0 h1]

lemma gotoCheckpointIndex_of_neg (y : Int) (hlow : -2147483648 ≤ y) (hneg : y < 0) :
    2147483648 ≤ gotoCheckpointIndex y := by
  unfold gotoCheckpointIndex
  have h2 : (2 : Int) ^ 32 = 4294967296 := by norm_num
  rw [h2]
  omega

/-- Claim C1 (counterexample): after the first simulated year has been
closed (a prior checkpoint exists, last_checkpoint = 1), processing
StepBack does not restore the most recently saved checkpoint (slot
last_checkpoint): the restored infected rasters and the restored
current date differ from that checkpoint's contents, because the
handler first decrements last_checkpoint and restores the preceding
slot. -/
theorem c1_stepback_counterexample :
    1 ≤ cexAfterYear.last_checkpoint ∧
    (stepBackHandler cexAfterYear).inf_species_rasts
      ≠ cexAfterYear.inf_checkpoint.getD cexAfterYear.last_checkpoint [] ∧
    (stepBackHandler cexAfterYear).dd_current
      ≠ cexAfterYear.date_checkpoint.getD cexAfterYear.last_checkpoint dDate := by
  decide

/-- Claim C1 (amended): when at least one simulated year has been
closed (last_checkpoint ≥ 1), processing StepBack restores, for every
run, the susceptible raster, the infected raster, the step counter and
the current date bit-for-bit from the checkpoint immediately preceding
the most recently saved one (slot last_checkpoint - 1), decrements
last_checkpoint to that slot, sets the target date to that
checkpoint's date, and clears the unresolved-step buffer. -/
theorem c1_stepback_restores_previous_checkpoint (s : SimState)
    (h1 : 1 ≤ s.last_checkpoint)
    (hn : 0 < s.num_runs)
    (hs : s.sus_species_rasts.length = s.num_runs)
    (hi : s.inf_species_rasts.length = s.num_runs)
    (hcs : (s.sus_checkpoint.getD (s.last_checkpoint - 1) []).length = s.num_runs)
    (hci : (s.inf_checkpoint.getD (s.last_checkpoint - 1) []).length = s.num_runs) :
    (stepBackHandler s).sus_species_rasts = s.sus_checkpoint.getD (s.last_checkpoint - 1) [] ∧
    (stepBackHandler s).inf_species_rasts = s.inf_checkpoint.getD (s.last_checkpoint - 1) [] ∧
    (stepBackHandler s).current_step = s.step_checkpoint.getD (s.last_checkpoint - 1) 0 ∧
    (stepBackHandler s).dd_current = s.date_checkpoint.getD (s.last_checkpoint - 1) dDate ∧
    (stepBackHandler s).dd_current_end = s.date_checkpoint.getD (s.last_checkpoint - 1) dDate ∧
    (stepBackHandler s).unresolved_steps = [] ∧
    (stepBackHandler s).last_checkpoint = s.last_checkpoint - 1 ∧
    (stepBackHandler s).after_loading_checkpoint = true := by
  unfold stepBackHandler
  rw [if_pos h1]
  refine ⟨?_, ?_, ?_, ?_, ?_, ?_, ?_, ?_⟩
  · exact updateRuns_const_row s.num_runs _ s.sus_species_rasts dImg hs hcs
  · exact updateRuns_const_row s.num_runs _ s.inf_species_rasts dImg hi hci
  · exact if_pos hn
  · rfl
  · rfl
  · exact if_pos hn
  · rfl
  · rfl

/-- Claim C1 (witness): the amended StepBack theorem at the concrete
state `c1w`. -/
theorem c1_stepback_witness :
    (stepBackHandler c1w).sus_species_rasts
      = c1w.sus_checkpoint.getD (c1w.last_checkpoint - 1) [] ∧
    (stepBackHandler c1w).inf_species_rasts
      = c1w.inf_checkpoint.getD (c1w.last_checkpoint - 1) [] ∧
    (stepBackHandler c1w).current_step = c1w.step_checkpoint.getD (c1w.last_checkpoint - 1) 0 ∧
    (stepBackHandler c1w).dd_current
      = c1w.date_checkpoint.getD (c1w.last_checkpoint - 1) dDate ∧
    (stepBackHandler c1w).dd_current_end
      = c1w.date_checkpoint.getD (c1w.last_checkpoint - 1) dDate ∧
    (stepBackHandler c1w).unresolved_steps = [] ∧
    (stepBackHandler c1w).last_checkpoint = c1w.last_checkpoint - 1 ∧
    (stepBackHandler c1w).after_loading_checkpoint = true :=
  c1_stepback_restores_previous_checkpoint c1w (by decide) (by decide) (by decide) (by decide)
    (by decide) (by decide)

/-- Claim C2 (counterexample): at the reachable state `c2Pre` (clock
past the start date), processing Pause, then one loop iteration, then
a second Pause leaves a target date different from the one set by the
first Pause: the iteration that processes a Pause still performs the
sub-step at the current date and advances the clock, so the second
Pause targets one sub-step later. -/
theorem c2_pause_counterexample :
    (loopIter cexOracle cexSteering SteeringCommand.Pause
      (loopIter cexOracle cexSteering SteeringCommand.None
        (loopIter cexOracle cexSteering SteeringCommand.Pause c2Pre))).dd_current_end
      ≠ (applyCommand cexOracle cexSteering SteeringCommand.Pause c2Pre).dd_current_end := by
  decide

/-- Claim C2 (amended): Pause sets the target date to the current
date, but the iteration that processes it still performs one sub-step
whenever the step condition holds, advancing the clock past the new
target; so Pause-iterate-Pause is idempotent on the target date
exactly in states where the step does not fire - in particular
whenever the clock still stands at the start date. -/
theorem c2_pause_idempotent_at_start (o : StochOracle) (st : Steering) (s : SimState)
    (h0 : s.stopped = false) (hc : s.dd_current = s.dd_start) :
    (loopIter o st SteeringCommand.Pause
      (loopIter o st SteeringCommand.None
        (loopIter o st SteeringCommand.Pause s))).dd_current_end
      = (applyCommand o st SteeringCommand.Pause s).dd_current_end := by
  simp [loopIter, applyCommand, stepGuard, h0, hc, Date.ltB_irrefl]

/-- Claim C2 (witness): the amended Pause idempotence theorem at the
concrete initial state. -/
theorem c2_pause_witness :
    cexInit.stopped = false ∧ cexInit.dd_current = cexInit.dd_start ∧
    (loopIter cexOracle cexSteering SteeringCommand.Pause
      (loopIter cexOracle cexSteering SteeringCommand.None
        (loopIter cexOracle cexSteering SteeringCommand.Pause cexInit))).dd_current_end
      = (applyCommand cexOracle cexSteering SteeringCommand.Pause cexInit).dd_current_end :=
  ⟨by decide, by decide,
    c2_pause_idempotent_at_start cexOracle cexSteering cexInit (by decide) (by decide)⟩

/-- Claim C3: GoTo semantics with invalid-request atomicity, for every
int-range year Y. (i) 0 ≤ Y ≤ last_checkpoint: every run's susceptible
and infected rasters, the step counter, the current date and the
target date are set from checkpoint Y and the unresolved-step buffer
is cleared; (ii) last_checkpoint < Y < num_checkpoints: only the
target date changes, to Dec 31 of (start year + Y - 1); (iii) Y
negative or Y ≥ num_checkpoints: no state changes at all (a negative Y
reaches the do-nothing branch through the int-to-unsigned
conversion). -/
theorem c3_goto_semantics (s : SimState) (y : Int)
    (hlow : -(2 : Int) ^ 31 ≤ y) (hhigh : y < (2 : Int) ^ 31)
    (hnck : s.num_checkpoints ≤ 2 ^ 31)
    (hlast : s.last_checkpoint < s.num_checkpoints)
    (hn : 0 < s.num_runs)
    (hs : s.sus_species_rasts.length = s.num_runs)
    (hi : s.inf_species_rasts.length = s.num_runs)
    (hcs : ∀ g, g < s.num_checkpoints → (s.sus_checkpoint.getD g []).length = s.num_runs)
    (hci : ∀ g, g < s.num_checkpoints → (s.inf_checkpoint.getD g []).length = s.num_runs) :
    (0 ≤ y → y ≤ (s.last_checkpoint : Int) →
      (gotoHandler y s).sus_species_rasts = s.sus_checkpoint.getD y.toNat [] ∧
      (gotoHandler y s).inf_species_rasts = s.inf_checkpoint.getD y.toNat [] ∧
      (gotoHandler y s).current_step = s.step_checkpoint.getD y.toNat 0 ∧
      (gotoHandler y s).dd_current = s.date_checkpoint.getD y.toNat dDate ∧
      (gotoHandler y s).dd_current_end = s.date_checkpoint.getD y.toNat dDate ∧
      (gotoHandler y s).unresolved_steps = [] ∧
      (gotoHandler y s).after_loading_checkpoint = true) ∧
    ((s.last_checkpoint : Int) < y → y < (s.num_checkpoints : Int) →
      gotoHandler y s = { s with dd_current_end := Date.mk (y + s.dd_start.year - 1) 12 31 }) ∧
    (y < 0 ∨ (s.num_checkpoints : Int) ≤ y → gotoHandler y s = s) := by
  have hpow31 : (2 : Int) ^ 31 = 2147483648 := by norm_num
  refine ⟨?_, ?_, ?_⟩
  · intro hy0 hylast
    have hgc : gotoCheckpointIndex y = y.toNat :=
      gotoCheckpointIndex_of_nonneg y hy0 (by omega)
    have hle : y.toNat ≤ s.last_checkpoint := by omega
    have hlt : y.toNat < s.num_checkpoints := by omega
    unfold gotoHandler
    rw [hgc, if_neg (by omega), if_pos hle]
    refine ⟨?_, ?_, ?_, ?_, ?_, ?_, ?_⟩
    · exact updateRuns_const_row s.num_runs _ s.sus_species_rasts dImg hs (hcs y.toNat hlt)
    · exact updateRuns_const_row s.num_runs _ s.inf_species_rasts dImg hi (hci y.toNat hlt)
    · exact if_pos hn
    · rfl
    · rfl
    · rfl
    · rfl
  · intro hy1 hy2
    have hy0 : 0 ≤ y := by omega
    have hgc : gotoCheckpointIndex y = y.toNat :=
      gotoCheckpointIndex_of_nonneg y hy0 (by omega)
    unfold gotoHandler
    rw [hgc, if_neg (by omega), if_neg (by omega)]
  · intro hy
    rcases hy with hy | hy
    · have hgc : 2147483648 ≤ gotoCheckpointIndex y :=
        gotoCheckpointIndex_of_neg y (by omega) hy
      unfold gotoHandler
      rw [if_pos (by omega)]
    · have hy0 : 0 ≤ y := by omega
      have hgc : gotoCheckpointIndex y = y.toNat :=
        gotoCheckpointIndex_of_nonneg y hy0 (by omega)
      unfold gotoHandler
      rw [hgc, if_pos (by omega)]

/-- Claim C3 (witness): the GoTo theorem at the concrete state `c1w`
(one closed year) and year 0; branch (i) applies and restores the
initial checkpoint. -/
theorem c3_goto_witness :
    (0 ≤ (0 : Int) → (0 : Int) ≤ (c1w.last_checkpoint : Int) →
      (gotoHandler 0 c1w).sus_species_rasts = c1w.sus_checkpoint.getD (0 : Int).toNat [] ∧
      (gotoHandler 0 c1w).inf_species_rasts = c1w.inf_checkpoint.getD (0 : Int).toNat [] ∧
      (gotoHandler 0 c1w).current_step = c1w.step_checkpoint.getD (0 : Int).toNat 0 ∧
      (gotoHandler 0 c1w).dd_current = c1w.date_checkpoint.getD (0 : Int).toNat dDate ∧
      (gotoHandler 0 c1w).dd_current_end = c1w.date_checkpoint.getD (0 : Int).toNat dDate ∧
      (gotoHandler 0 c1w).unresolved_steps = [] ∧
      (gotoHandler 0 c1w).after_loading_checkpoint = true) ∧
    ((c1w.last_checkpoint : Int) < 0 → (0 : Int) < (c1w.num_checkpoints : Int) →
      gotoHandler 0 c1w
        = { c1w with dd_current_end := Date.mk (0 + c1w.dd_start.year - 1) 12 31 }) ∧
    ((0 : Int) < 0 ∨ (c1w.num_checkpoints : Int) ≤ 0 → gotoHandler 0 c1w = c1w) :=
  c3_goto_semantics c1w 0 (by norm_num) (by norm_num) (by decide) (by decide) (by decide)
    (by decide) (by decide) (by decide) (by decide)

/-- Claim C4: a receive failure (rec_error ≤ 0) is an implicit
graceful Stop.  For any prefix of successful, well-formed, stop-free
frames, the client run ends at the failing receive with the socket
closed and exactly one Stop command appended to the queue; the result
does not depend on anything after the failure, so no further command
is ever produced.  The scheduler processing that Stop leaves its loop
(stopped = true), and a stopped scheduler state absorbs every further
iteration. -/
theorem c4_receive_failure_is_stop (good rest : List (Int × List Char)) (e : Int)
    (p : List Char) (st : Steering) (o : StochOracle) (stg : Steering) (s : SimState)
    (hgood : ∀ fr ∈ good, 0 < fr.1 ∧
      ∀ m ∈ cppSplit fr.2 ';', msgOk m = true ∧ isStopMsg m = false)
    (he : e ≤ 0) (hstop : s.stopped = false) :
    clientRun (good ++ (e, p) :: rest) st
      = ((processFrames good st).store SteeringCommand.Stop, true) ∧
    (loopIter o stg SteeringCommand.Stop s).stopped = true ∧
    (∀ cmd s2, s2.stopped = true → loopIter o stg cmd s2 = s2) := by
  refine ⟨?_, ?_, ?_⟩
  · rw [clientRun_skips_good_frames good ((e, p) :: rest) st
      (fun fr hfr => ⟨(hgood fr hfr).1, fun m hm => ((hgood fr hfr).2 m hm).2⟩)]
    unfold clientRun
    rw [if_pos he]
  · simp [loopIter, applyCommand, hstop]
  · intro cmd s2 h2
    simp [loopIter, h2]

/-- Claim C4 (witness): the receive-failure theorem at a concrete
stream: one good frame, then a failing receive, then a further frame
that is provably never examined. -/
theorem c4_receive_failure_witness :
    clientRun ([((1 : Int), "cmd:play".toList)] ++ ((0 : Int), []) :: [((1 : Int), "sync".toList)])
        cexSteering
      = ((processFrames [((1 : Int), "cmd:play".toList)] cexSteering).store SteeringCommand.Stop,
        true) ∧
    (loopIter cexOracle cexSteering SteeringCommand.Stop cexInit).stopped = true ∧
    (∀ cmd s2, s2.stopped = true → loopIter cexOracle cexSteering cmd s2 = s2) :=
  c4_receive_failure_is_stop [((1 : Int), "cmd:play".toList)] [((1 : Int), "sync".toList)] 0 []
    cexSteering cexOracle cexSteering cexInit (by decide) (by decide) (by decide)

/-- Claim C10: a `cmd:stop` message terminates frame parsing.  For any
frame made of a stop-free, well-formed prefix, a stop message, and an
arbitrary suffix, the per-frame loop returns exactly the prefix's
effects plus one Stop command, with break_flag set; the result does
not mention the suffix, so no message after `cmd:stop` produces a
command or updates any staging field. -/
theorem c10_stop_terminates_frame (pre suf : List (List Char)) (m0 : List Char) (st : Steering)
    (hstop : isStopMsg m0 = true)
    (hpre : ∀ m ∈ pre, msgOk m = true ∧ isStopMsg m = false) :
    parseFrame (pre ++ m0 :: suf) st
      = ((parseMsgs pre st).store SteeringCommand.Stop, true) :=
  parseFrame_stop_tail pre suf m0 hstop st (fun m hm => (hpre m hm).2)

/-- Claim C10 (witness): the frame-termination theorem at a concrete
frame `cmd:play ; cmd:stop ; cmd:pause ; goto:3`. -/
theorem c10_stop_terminates_witness :
    parseFrame (["cmd:play".toList] ++ "cmd:stop".toList :: ["cmd:pause".toList, "goto:3".toList])
        cexSteering
      = ((parseMsgs ["cmd:play".toList] cexSteering).store SteeringCommand.Stop, true) :=
  c10_stop_terminates_frame ["cmd:play".toList] ["cmd:pause".toList, "goto:3".toList]
    "cmd:stop".toList cexSteering (by decide) (by decide)

lemma maybeYearClose_frame (o : StochOracle) (s : SimState) :
    (maybeYearClose o s).stopped = s.stopped ∧
    (maybeYearClose o s).dd_current = s.dd_current ∧
    (maybeYearClose o s).dd_end = s.dd_end ∧
    (maybeYearClose o s).steering = s.steering := by
  unfold maybeYearClose
  split
  · exact ⟨(yearClose_frame o s).1, (yearClose_frame o s).2.1, (yearClose_frame o s).2.2.1,
      (yearClose_frame o s).2.2.2.2.1⟩
  · exact ⟨rfl, rfl, rfl, rfl⟩

/-- Claim C5: early termination on full infection.  In a stepping
iteration (step condition true, loop not yet stopped), if every cell
of the checked susceptible raster S_species_rast is ≤ 0 then the loop
terminates right there (stopped, clock not advanced, no year-closing);
conversely, while some cell of that raster is positive this exit is
not taken: the clock advances by one sub-step, and the iteration can
only stop through the ordinary end-of-simulation check. -/
theorem c5_all_infected_early_exit (o : StochOracle) (st : Steering) (s : SimState)
    (h0 : s.stopped = false) (hg : stepGuard s = true) :
    (all_infected s.S_species_rast = true →
      (loopIter o st SteeringCommand.None s).stopped = true ∧
      (loopIter o st SteeringCommand.None s).dd_current = s.dd_current) ∧
    (all_infected s.S_species_rast = false →
      (loopIter o st SteeringCommand.None s).dd_current = s.dd_current.increasedByMonth ∧
      (loopIter o st SteeringCommand.None s).stopped
        = (Date.ltB s.dd_end s.dd_current.increasedByMonth && !s.steering)) := by
  have happ : applyCommand o st SteeringCommand.None s = s := rfl
  constructor
  · intro ha
    unfold loopIter
    rw [happ]
    simp only [h0, Bool.false_eq_true, if_false, hg, if_true]
    unfold stepPhase
    rw [if_pos ha]
    exact ⟨rfl, rfl⟩
  · intro ha
    unfold loopIter
    rw [happ]
    simp only [h0, Bool.false_eq_true, if_false, hg, if_true]
    unfold stepPhase
    rw [if_neg (by simp [ha])]
    obtain ⟨ht1, ht2, ht3, ht4⟩ := maybeYearClose_frame o (stepPush s)
    unfold stepEnd stepAdvance clearAfterLoading
    simp only [ht1, ht2, ht3, ht4]
    have hp1 : (stepPush s).stopped = s.stopped := rfl
    have hp2 : (stepPush s).dd_current = s.dd_current := rfl
    have hp3 : (stepPush s).dd_end = s.dd_end := rfl
    have hp4 : (stepPush s).steering = s.steering := rfl
    rw [hp1, hp2, hp3, hp4]
    split_ifs with hcond
    · exact ⟨rfl, by simp [hcond]⟩
    · refine ⟨rfl, ?_⟩
      rw [h0]
      exact (Bool.not_eq_true _).mp hcond |>.symm

/-- Claim C5 (witness): the early-exit theorem at the reachable
concrete state `c2Pre`, whose checked susceptible raster still has
positive cells, so the exit is not taken and the clock advances. -/
theorem c5_all_infected_witness :
    c2Pre.stopped = false ∧ stepGuard c2Pre = true ∧
    ((all_infected c2Pre.S_species_rast = true →
      (loopIter cexOracle cexSteering SteeringCommand.None c2Pre).stopped = true ∧
      (loopIter cexOracle cexSteering SteeringCommand.None c2Pre).dd_current
        = c2Pre.dd_current) ∧
    (all_infected c2Pre.S_species_rast = false →
      (loopIter cexOracle cexSteering SteeringCommand.None c2Pre).dd_current
        = c2Pre.dd_current.increasedByMonth ∧
      (loopIter cexOracle cexSteering SteeringCommand.None c2Pre).stopped
        = (Date.ltB c2Pre.dd_end c2Pre.dd_current.increasedByMonth && !c2Pre.steering))) :=
  ⟨by decide, by decide,
    c5_all_infected_early_exit cexOracle cexSteering c2Pre (by decide) (by decide)⟩

/-- Claim C7: sync convergence.  A SyncRuns command only sets the
deferred sync flag; at the next year-closing batch every run's
susceptible and infected rasters are overwritten with run 0's rasters
and the flag is cleared, so immediately after the batch every
realization's rasters equal realization 0's. -/
theorem c7_sync_convergence (o : StochOracle) (st : Steering) (s : SimState)
    (hsync : s.sync = true)
    (hs : s.sus_species_rasts.length = s.num_runs)
    (hi : s.inf_species_rasts.length = s.num_runs) :
    (∀ s2 : SimState, applyCommand o st SteeringCommand.SyncRuns s2 = { s2 with sync := true }) ∧
    (yearClose o s).sync = false ∧
    (∀ r, r < s.num_runs →
      (yearClose o s).sus_species_rasts.getD r dImg
        = (yearClose o s).sus_species_rasts.getD 0 dImg ∧
      (yearClose o s).inf_species_rasts.getD r dImg
        = (yearClose o s).inf_species_rasts.getD 0 dImg) := by
  obtain ⟨-, -, -, -, -, -, q1sync, q1n, q1s, q1i⟩ := stochPassBlock_frame o s
  obtain ⟨-, -, -, -, -, -, q2sync, q2n, q2s, q2i⟩ :=
    checkpointSaveBlock_frame (stochPassBlock o s)
  obtain ⟨-, -, -, -, -, -, q3sync, q3n, q3s, q3i⟩ :=
    mortalityBlock_frame (checkpointSaveBlock (stochPassBlock o s))
  obtain ⟨-, -, -, -, -, -, q4sync, q4n, q4s, q4i⟩ :=
    spreadRateBlock_frame o (mortalityBlock (checkpointSaveBlock (stochPassBlock o s)))
  set s4 := spreadRateBlock o (mortalityBlock (checkpointSaveBlock (stochPassBlock o s)))
    with hs4def
  have hsync4 : s4.sync = true := by rw [hs4def, q4sync, q3sync, q2sync, q1sync, hsync]
  have hn4 : s4.num_runs = s.num_runs := by rw [hs4def, q4n, q3n, q2n, q1n]
  have hlen4s : s4.sus_species_rasts.length = s.num_runs := by
    rw [hs4def, q4s, q3s, q2s, q1s, hs]
  have hlen4i : s4.inf_species_rasts.length = s.num_runs := by
    rw [hs4def, q4i, q3i, q2i, q1i, hi]
  have hyc : yearClose o s = deadSeriesBlock (syncBlock s4) := rfl
  obtain ⟨-, -, -, -, -, -, d7, -, d9, d10⟩ := deadSeriesBlock_frame (syncBlock s4)
  have hsb : (syncBlock s4).sync = false := by
    unfold syncBlock
    rw [if_pos hsync4]
  have hsbs : ∀ r, r < s.num_runs →
      (syncBlock s4).sus_species_rasts.getD r dImg = s4.sus_species_rasts.getD 0 dImg := by
    intro r hr
    unfold syncBlock
    rw [if_pos hsync4]
    have := updateRuns_getD s4.num_runs
      (fun r v => if r = 0 then v else s4.sus_species_rasts.getD 0 dImg)
      s4.sus_species_rasts dImg r (by omega) (by omega)
    rw [this]
    by_cases h : r = 0
    · rw [h]
      simp
    · simp [h]
  have hsbi : ∀ r, r < s.num_runs →
      (syncBlock s4).inf_species_rasts.getD r dImg = s4.inf_species_rasts.getD 0 dImg := by
    intro r hr
    unfold syncBlock
    rw [if_pos hsync4]
    have := updateRuns_getD s4.num_runs
      (fun r v => if r = 0 then v else s4.inf_species_rasts.getD 0 dImg)
      s4.inf_species_rasts dImg r (by omega) (by omega)
    rw [this]
    by_cases h : r = 0
    · rw [h]
      simp
    · simp [h]
  refine ⟨fun s2 => rfl, ?_, ?_⟩
  · rw [hyc, d7, hsb]
  · intro r hr
    have h0n : 0 < s.num_runs := by omega
    constructor
    · rw [hyc, d9, hsbs r hr, hsbs 0 h0n]
    · rw [hyc, d10, hsbi r hr, hsbi 0 h0n]

/-- Claim C7 (witness): the sync-convergence theorem at the concrete
two-run state `c7w`. -/
theorem c7_sync_witness :
    (∀ s2 : SimState,
      applyCommand cexOracle cexSteering SteeringCommand.SyncRuns s2 = { s2 with sync := true }) ∧
    (yearClose cexOracle c7w).sync = false ∧
    (∀ r, r < c7w.num_runs →
      (yearClose cexOracle c7w).sus_species_rasts.getD r dImg
        = (yearClose cexOracle c7w).sus_species_rasts.getD 0 dImg ∧
      (yearClose cexOracle c7w).inf_species_rasts.getD r dImg
        = (yearClose cexOracle c7w).inf_species_rasts.getD 0 dImg) :=
  c7_sync_convergence cexOracle cexSteering c7w (by decide) (by decide) (by decide)

/-- Claim C8: GoTo bounds safety.  For every int-range goto_year, a
negative year converts (mod 2^32) to an index at or above
num_checkpoints, taking the do-nothing branch; and in general the
handler either has its checkpoint index strictly below num_checkpoints
(the only branches that index the checkpoint arrays) or changes
nothing, so no out-of-bounds access is reachable. -/
theorem c8_goto_bounds_safety (s : SimState) (y : Int)
    (hlow : -(2 : Int) ^ 31 ≤ y) (hnck : s.num_checkpoints ≤ 2 ^ 31) :
    (y < 0 → s.num_checkpoints ≤ gotoCheckpointIndex y ∧ gotoHandler y s = s) ∧
    (gotoCheckpointIndex y < s.num_checkpoints ∨ gotoHandler y s = s) := by
  have hpow : (2 : Int) ^ 31 = 2147483648 := by norm_num
  constructor
  · intro hy
    have hge : 2147483648 ≤ gotoCheckpointIndex y :=
      gotoCheckpointIndex_of_neg y (by omega) hy
    have hge2 : s.num_checkpoints ≤ gotoCheckpointIndex y := by omega
    refine ⟨hge2, ?_⟩
    unfold gotoHandler
    rw [if_pos hge2]
  · by_cases h : gotoCheckpointIndex y < s.num_checkpoints
    · exact Or.inl h
    · refine Or.inr ?_
      unfold gotoHandler
      rw [if_pos (by omega)]

/-- Claim C8 (witness): the bounds-safety theorem at the concrete
state `cexInit` and the negative year -3. -/
theorem c8_goto_bounds_witness :
    ((-3 : Int) < 0 → cexInit.num_checkpoints ≤ gotoCheckpointIndex (-3) ∧
      gotoHandler (-3) cexInit = cexInit) ∧
    (gotoCheckpointIndex (-3) < cexInit.num_checkpoints ∨ gotoHandler (-3) cexInit = cexInit) :=
  c8_goto_bounds_safety cexInit (-3) (by norm_num) (by decide)

/-- Claim C9: restore frame property.  StepBack leaves the per-run
cohort rasters, the dead-in-current-year and accumulated-dead rasters,
the spread-rate accumulators, the dispersal kernels, the treatment
schedule, the checkpoint arrays and the sync flag unchanged; the GoTo
handler (in all of its branches, the backward jump included) leaves
the same state unchanged and additionally never changes the
last-checkpoint index. -/
theorem c9_restore_frame (s : SimState) (y : Int) :
    ((stepBackHandler s).inf_species_cohort_rasts = s.inf_species_cohort_rasts ∧
     (stepBackHandler s).dead_in_current_year = s.dead_in_current_year ∧
     (stepBackHandler s).accumulated_dead = s.accumulated_dead ∧
     (stepBackHandler s).spread_rates = s.spread_rates ∧
     (stepBackHandler s).kernels = s.kernels ∧
     (stepBackHandler s).treatments = s.treatments ∧
     (stepBackHandler s).sus_checkpoint = s.sus_checkpoint ∧
     (stepBackHandler s).inf_checkpoint = s.inf_checkpoint ∧
     (stepBackHandler s).step_checkpoint = s.step_checkpoint ∧
     (stepBackHandler s).date_checkpoint = s.date_checkpoint ∧
     (stepBackHandler s).sync = s.sync) ∧
    ((gotoHandler y s).inf_species_cohort_rasts = s.inf_species_cohort_rasts ∧
     (gotoHandler y s).dead_in_current_year = s.dead_in_current_year ∧
     (gotoHandler y s).accumulated_dead = s.accumulated_dead ∧
     (gotoHandler y s).spread_rates = s.spread_rates ∧
     (gotoHandler y s).kernels = s.kernels ∧
     (gotoHandler y s).treatments = s.treatments ∧
     (gotoHandler y s).sus_checkpoint = s.sus_checkpoint ∧
     (gotoHandler y s).inf_checkpoint = s.inf_checkpoint ∧
     (gotoHandler y s).step_checkpoint = s.step_checkpoint ∧
     (gotoHandler y s).date_checkpoint = s.date_checkpoint ∧
     (gotoHandler y s).sync = s.sync ∧
     (gotoHandler y s).last_checkpoint = s.last_checkpoint) := by
  constructor
  · unfold stepBackHandler
    split <;> simp
  · by_cases h1 : s.num_checkpoints ≤ gotoCheckpointIndex y
    · simp [gotoHandler, h1]
    · by_cases h2 : gotoCheckpointIndex y ≤ s.last_checkpoint
      · simp [gotoHandler, h1, h2]
      · simp [gotoHandler, h1, h2]

lemma mortalityRun_one (q : Rat) (coh : List Img) (z : Img) :
    mortalityRun q 1 coh z
      = ((coh.set 0 (Img.sub (coh.getD 0 dImg) (Img.scalarMul q (coh.getD 0 dImg)))).set 1
           (Img.sub (coh.getD 1 dImg) (Img.scalarMul q (coh.getD 1 dImg))),
         Img.add (Img.add z (Img.scalarMul q (coh.getD 0 dImg)))
           (Img.scalarMul q (coh.getD 1 dImg))) := by
  unfold mortalityRun
  have hrange : List.range 2 = [0, 1] := rfl
  rw [hrange]
  simp only [List.foldl_cons, List.foldl_nil]
  unfold mortalityStep
  simp only []
  rw [listGetD_set_ne coh 0 1 _ dImg (by omega)]

/-- Claim C6: mortality aging arithmetic at the year-closing batch of
simulation year 1 with a 1-year time lag (first_year_to_die = 1), for
any run r.  In general (first four conjuncts, any rate): each valid
cohort bucket (ages 0 and 1 here) loses the raster
`rate * bucket` to the freshly zeroed dead-in-current-year
accumulator, and the total is subtracted from the run's infected
raster.  The last conjunct is the concrete scenario: with rate 1/2 and
a cell holding 10 infected hosts in the age-0 cohort (and 0 in the
age-1 cohort), the batch moves 5 hosts out of the cohort cell (it
becomes 5), the dead accumulator cell becomes 5, and the infected
raster cell drops by 5. -/
theorem c6_mortality_aging (s : SimState) (r : Nat)
    (hm : s.mortality = true)
    (hf : s.first_year_to_die = 1)
    (hy : s.dd_current.year = s.dd_start.year + 1)
    (hr : r < s.num_runs)
    (hclen : s.inf_species_cohort_rasts.length = s.num_runs)
    (hdlen : s.dead_in_current_year.length = s.num_runs)
    (hilen : s.inf_species_rasts.length = s.num_runs)
    (hc2 : 2 ≤ (s.inf_species_cohort_rasts.getD r []).length) :
    ((mortalityBlock s).inf_species_cohort_rasts.getD r []).getD 0 dImg
      = Img.sub ((s.inf_species_cohort_rasts.getD r []).getD 0 dImg)
          (Img.scalarMul s.infected_to_dead_rate
            ((s.inf_species_cohort_rasts.getD r []).getD 0 dImg)) ∧
    ((mortalityBlock s).inf_species_cohort_rasts.getD r []).getD 1 dImg
      = Img.sub ((s.inf_species_cohort_rasts.getD r []).getD 1 dImg)
          (Img.scalarMul s.infected_to_dead_rate
            ((s.inf_species_cohort_rasts.getD r []).getD 1 dImg)) ∧
    (mortalityBlock s).dead_in_current_year.getD r dImg
      = Img.add (Img.add (Img.zero (s.dead_in_current_year.getD r dImg))
          (Img.scalarMul s.infected_to_dead_rate
            ((s.inf_species_cohort_rasts.getD r []).getD 0 dImg)))
          (Img.scalarMul s.infected_to_dead_rate
            ((s.inf_species_cohort_rasts.getD r []).getD 1 dImg)) ∧
    (mortalityBlock s).inf_species_rasts.getD r dImg
      = Img.sub (s.inf_species_rasts.getD r dImg)
          (Img.add (Img.add (Img.zero (s.dead_in_current_year.getD r dImg))
            (Img.scalarMul s.infected_to_dead_rate
              ((s.inf_species_cohort_rasts.getD r []).getD 0 dImg)))
            (Img.scalarMul s.infected_to_dead_rate
              ((s.inf_species_cohort_rasts.getD r []).getD 1 dImg))) ∧
    (∀ j k : Nat, ∀ c0 c1 d0 i0 : Img,
      c0 = (s.inf_species_cohort_rasts.getD r []).getD 0 dImg →
      c1 = (s.inf_species_cohort_rasts.getD r []).getD 1 dImg →
      d0 = s.dead_in_current_year.getD r dImg →
      i0 = s.inf_species_rasts.getD r dImg →
      s.infected_to_dead_rate.num = 1 →
      s.infected_to_dead_rate.den = 2 →
      j * c0.cols + k < c0.data.length →
      c1.cols = c0.cols → c1.data.length = c0.data.length →
      d0.cols = c0.cols → d0.data.length = c0.data.length →
      i0.cols = c0.cols → i0.data.length = c0.data.length →
      c0.get j k = 10 → c1.get j k = 0 →
      (((mortalityBlock s).inf_species_cohort_rasts.getD r []).getD 0 dImg).get j k = 5 ∧
      ((mortalityBlock s).dead_in_current_year.getD r dImg).get j k = 5 ∧
      ((mortalityBlock s).inf_species_rasts.getD r dImg).get j k = i0.get j k - 5) := by
  have hsim : (s.dd_current.year - s.dd_start.year).toNat = 1 := by omega
  have hcond : s.first_year_to_die - 1 ≤ (s.dd_current.year - s.dd_start.year).toNat := by
    omega
  have hmax : (s.dd_current.year - s.dd_start.year).toNat - (s.first_year_to_die - 1) = 1 := by
    omega
  have hblock : mortalityBlock s = { s with
      inf_species_cohort_rasts := updateRuns s.num_runs
        (fun run _ => (mortalityRun s.infected_to_dead_rate 1
          (s.inf_species_cohort_rasts.getD run [])
          (Img.zero (s.dead_in_current_year.getD run dImg))).1) s.inf_species_cohort_rasts,
      dead_in_current_year := updateRuns s.num_runs
        (fun run _ => (mortalityRun s.infected_to_dead_rate 1
          (s.inf_species_cohort_rasts.getD run [])
          (Img.zero (s.dead_in_current_year.getD run dImg))).2) s.dead_in_current_year,
      inf_species_rasts := updateRuns s.num_runs
        (fun run v => Img.sub v (mortalityRun s.infected_to_dead_rate 1
          (s.inf_species_cohort_rasts.getD run [])
          (Img.zero (s.dead_in_current_year.getD run dImg))).2) s.inf_species_rasts } := by
    unfold mortalityBlock
    rw [if_pos hm]
    simp only [hcond, if_true, hmax]
  have hA : ((mortalityBlock s).inf_species_cohort_rasts.getD r []).getD 0 dImg
      = Img.sub ((s.inf_species_cohort_rasts.getD r []).getD 0 dImg)
          (Img.scalarMul s.infected_to_dead_rate
            ((s.inf_species_cohort_rasts.getD r []).getD 0 dImg)) := by
    rw [hblock]
    have hupd := updateRuns_getD s.num_runs
      (fun run _ => (mortalityRun s.infected_to_dead_rate 1
        (s.inf_species_cohort_rasts.getD run [])
        (Img.zero (s.dead_in_current_year.getD run dImg))).1)
      s.inf_species_cohort_rasts ([] : List Img) r (by omega) hr
    rw [hupd]
    simp only [mortalityRun_one]
    rw [listGetD_set_ne _ 1 0 _ dImg (by omega)]
    rw [listGetD_set_eq _ 0 _ dImg (by omega)]
  have hA1 : ((mortalityBlock s).inf_species_cohort_rasts.getD r []).getD 1 dImg
      = Img.sub ((s.inf_species_cohort_rasts.getD r []).getD 1 dImg)
          (Img.scalarMul s.infected_to_dead_rate
            ((s.inf_species_cohort_rasts.getD r []).getD 1 dImg)) := by
    rw [hblock]
    have hupd := updateRuns_getD s.num_runs
      (fun run _ => (mortalityRun s.infected_to_dead_rate 1
        (s.inf_species_cohort_rasts.getD run [])
        (Img.zero (s.dead_in_current_year.getD run dImg))).1)
      s.inf_species_cohort_rasts ([] : List Img) r (by omega) hr
    rw [hupd]
    simp only [mortalityRun_one]
    rw [listGetD_set_eq _ 1 _ dImg (by rw [List.length_set]; omega)]
  have hB : (mortalityBlock s).dead_in_current_year.getD r dImg
      = Img.add (Img.add (Img.zero (s.dead_in_current_year.getD r dImg))
          (Img.scalarMul s.infected_to_dead_rate
            ((s.inf_species_cohort_rasts.getD r []).getD 0 dImg)))
          (Img.scalarMul s.infected_to_dead_rate
            ((s.inf_species_cohort_rasts.getD r []).getD 1 dImg)) := by
    rw [hblock]
    have hupd := updateRuns_getD s.num_runs
      (fun run _ => (mortalityRun s.infected_to_dead_rate 1
        (s.inf_species_cohort_rasts.getD run [])
        (Img.zero (s.dead_in_current_year.getD run dImg))).2)
      s.dead_in_current_year dImg r (by omega) hr
    rw [hupd]
    simp only [mortalityRun_one]
  have hC : (mortalityBlock s).inf_species_rasts.getD r dImg
      = Img.sub (s.inf_species_rasts.getD r dImg)
          (Img.add (Img.add (Img.zero (s.dead_in_current_year.getD r dImg))
            (Img.scalarMul s.infected_to_dead_rate
              ((s.inf_species_cohort_rasts.getD r []).getD 0 dImg)))
            (Img.scalarMul s.infected_to_dead_rate
              ((s.inf_species_cohort_rasts.getD r []).getD 1 dImg))) := by
    rw [hblock]
    have hupd := updateRuns_getD s.num_runs
      (fun run v => Img.sub v (mortalityRun s.infected_to_dead_rate 1
        (s.inf_species_cohort_rasts.getD run [])
        (Img.zero (s.dead_in_current_year.getD run dImg))).2)
      s.inf_species_rasts dImg r (by omega) hr
    rw [hupd]
    simp only [mortalityRun_one]
  refine ⟨hA, hA1, hB, hC, ?_⟩
  intro j k c0 c1 d0 i0 hc0 hc1 hd0 hi0 hnum hden hjk hcc hcl hdc hdl hic hil hv0 hv1
  have hjk1 : j * c1.cols + k < c1.data.length := by
    rw [hcc, hcl]
    exact hjk
  have hjkd : j * d0.cols + k < d0.data.length := by
    rw [hdc, hdl]
    exact hjk
  have hjki : j * i0.cols + k < i0.data.length := by
    rw [hic, hil]
    exact hjk
  have hmul0 : (Img.scalarMul s.infected_to_dead_rate c0).get j k = 5 := by
    rw [Img.get_scalarMul _ _ _ _ hjk, hnum, hden, hv0]
    decide
  have hmul1 : (Img.scalarMul s.infected_to_dead_rate c1).get j k = 0 := by
    rw [Img.get_scalarMul _ _ _ _ hjk1, hnum, hden, hv1]
    decide
  have hz : (Img.zero d0).get j k = 0 := Img.get_zero d0 j k hjkd
  have hzb : j * (Img.zero d0).cols + k < (Img.zero d0).data.length := by
    rw [Img.cols_zero, Img.data_length_zero]
    exact hjkd
  have hzc : (Img.scalarMul s.infected_to_dead_rate c0).cols = (Img.zero d0).cols := by
    rw [Img.cols_scalarMul, Img.cols_zero, hdc]
  have hadd1 : (Img.add (Img.zero d0) (Img.scalarMul s.infected_to_dead_rate c0)).get j k
      = (Img.zero d0).get j k + (Img.scalarMul s.infected_to_dead_rate c0).get j k :=
    Img.get_add (Img.zero d0) (Img.scalarMul s.infected_to_dead_rate c0) j k hzb hzc
  have ha1b : j * (Img.add (Img.zero d0) (Img.scalarMul s.infected_to_dead_rate c0)).cols + k
      < (Img.add (Img.zero d0) (Img.scalarMul s.infected_to_dead_rate c0)).data.length := by
    unfold Img.add
    rw [Img.cols_map2, Img.data_length_map2]
    exact hzb
  have ha1c : (Img.scalarMul s.infected_to_dead_rate c1).cols
      = (Img.add (Img.zero d0) (Img.scalarMul s.infected_to_dead_rate c0)).cols := by
    unfold Img.add
    rw [Img.cols_map2, Img.cols_scalarMul, Img.cols_zero, hcc, hdc]
  have hadd2 : (Img.add (Img.add (Img.zero d0) (Img.scalarMul s.infected_to_dead_rate c0))
        (Img.scalarMul s.infected_to_dead_rate c1)).get j k
      = (Img.add (Img.zero d0) (Img.scalarMul s.infected_to_dead_rate c0)).get j k
        + (Img.scalarMul s.infected_to_dead_rate c1).get j k :=
    Img.get_add _ _ j k ha1b ha1c
  have hdead : (Img.add (Img.add (Img.zero d0) (Img.scalarMul s.infected_to_dead_rate c0))
        (Img.scalarMul s.infected_to_dead_rate c1)).get j k = 5 := by
    rw [hadd2, hadd1, hz, hmul0, hmul1]
    decide
  refine ⟨?_, ?_, ?_⟩
  · have e1 : (Img.sub c0 (Img.scalarMul s.infected_to_dead_rate c0)).get j k
        = c0.get j k - (Img.scalarMul s.infected_to_dead_rate c0).get j k :=
      Img.get_sub c0 (Img.scalarMul s.infected_to_dead_rate c0) j k hjk rfl
    rw [hA, ← hc0, e1, hmul0, hv0]
    decide
  · rw [hB, ← hc0, ← hc1, ← hd0]
    exact hdead
  · have hdc2 : (Img.add (Img.add (Img.zero d0) (Img.scalarMul s.infected_to_dead_rate c0))
        (Img.scalarMul s.infected_to_dead_rate c1)).cols = i0.cols := by
      unfold Img.add
      rw [Img.cols_map2, Img.cols_map2, Img.cols_zero, hdc, hic]
    have e3 : (Img.sub i0 (Img.add (Img.add (Img.zero d0)
          (Img.scalarMul s.infected_to_dead_rate c0))
          (Img.scalarMul s.infected_to_dead_rate c1))).get j k
        = i0.get j k - (Img.add (Img.add (Img.zero d0)
            (Img.scalarMul s.infected_to_dead_rate c0))
            (Img.scalarMul s.infected_to_dead_rate c1)).get j k :=
      Img.get_sub i0 _ j k hjki hdc2
    rw [hC, ← hc0, ← hc1, ← hd0, ← hi0, e3, hdead]

/-- Claim C6 (witness): the mortality theorem's scenario conclusion at
the concrete state `c6w`: the cohort cell drops from 10 to 5, the dead
accumulator cell becomes 5, and the infected cell drops by 5. -/
theorem c6_mortality_witness :
    (((mortalityBlock c6w).inf_species_cohort_rasts.getD 0 []).getD 0 dImg).get 0 0 = 5 ∧
    ((mortalityBlock c6w).dead_in_current_year.getD 0 dImg).get 0 0 = 5 ∧
    ((mortalityBlock c6w).inf_species_rasts.getD 0 dImg).get 0 0
      = (c6w.inf_species_rasts.getD 0 dImg).get 0 0 - 5 :=
  (c6_mortality_aging c6w 0 (by decide) (by decide) (by decide) (by decide) (by decide)
      (by decide) (by decide) (by decide)).2.2.2.2 0 0 _ _ _ _ rfl rfl rfl rfl
    (by decide) (by decide) (by decide) (by decide) (by decide) (by decide) (by decide)
    (by decide) (by decide) (by decide) (by decide)
